import Mathlib

/-!
Verification of the jet-pricing HTTP handler (repository
`jet-pricing-api`).  The repository holds four near-duplicate revisions of
one handler file; the authoritative (latest) revision is the second half of
`src/api/calculate.js` (the one defining `validateFlightRequest`,
`getCityToICAOImproved`, `calculateRepositioningCost`,
`processMultilegRequest` and the roundtrip-aware `handler`).  Earlier
revisions (`src/unnamed/part_000`, `part_001`, `part_002`, first half of
`calculate.js`) share `getDistanceKm` and a simpler one-way pricer.

Modelling conventions:
* JavaScript numbers are embedded as `ℚ` (every IEEE double is rational);
  `Math.round` is `jsRound`, `Math.floor` is `Int.floor`, `Math.ceil` is
  `Int.ceil`.
* The transcendental great-circle distance `getDistanceKm` is embedded over
  `ℝ` (section at the end of the definitions).  The discrete pipeline
  (fleet filter, pricing, ranking) takes the distance function as an
  explicit parameter `d : Coords → Coords → ℚ`, mirroring the handler's
  calls to `getDistanceKm`; theorems about the pipeline hold for every
  distance function, in particular for the haversine one.
* The JS object `AIRPORTS` is an association list `List (String × Coords)`
  queried with `List.lookup`.
* `Array.prototype.sort` (guaranteed stable by ECMAScript) is embedded as
  `List.mergeSort`, which is a stable sort; for the total preorder
  comparators used by the handler the stable-sorted result is unique, so
  any stable sort is a faithful model.
* Absent / `null` JS fields are `Option`; the JS truthiness of `x || y`
  on numbers (`0` falsy) is `jsOrNum`, on strings (`""` falsy) `jsOrStr`.
* Display-only fields of the response objects (logo/image echoes,
  `estimated_arrival`, the per-leg `legs` breakdown array and the
  `flight_time_h` `toFixed(2)` string formatting) are not inspected by any
  claim; quotes carry the exact rational flight time instead of its
  2-decimal rendering, and the scheduling echo fields are omitted.
-/

/-- Math.round of JavaScript: round half toward positive infinity. -/
def jsRound (q : ℚ) : ℤ := ⌊q + 1/2⌋

/-- JavaScript `a || b` for an optional numeric `a`: `null`/absent and `0`
are falsy and fall through to `b`. -/
def jsOrNum (a : Option ℚ) (b : Option ℚ) : Option ℚ :=
  match a with
  | some x => if x = 0 then b else some x
  | none => b

/-- JavaScript `a || d` for an optional numeric `a` with a non-optional
default `d` (used for `parking_cost_per_day || 500`, `range_km || 3000`). -/
def jsOrNumD (a : Option ℚ) (d : ℚ) : ℚ :=
  match a with
  | some x => if x = 0 then d else x
  | none => d

/-- JavaScript `a || b` for optional strings: `null`/absent and `""` are
falsy. -/
def jsOrStr (a : Option String) (b : String) : String :=
  match a with
  | some s => if s = "" then b else s
  | none => b

/-- Geographic coordinates, as stored in the `AIRPORTS` map built by the
handler (`{ lat, lon }` parsed from the `Airport 2` table). -/
structure Coords where
  lat : ℚ
  lon : ℚ
deriving DecidableEq

/-- A row of the `jet` table, with the fields the handler reads.
Optional numeric fields are `Option ℚ`; `homebase` may be `null`
(the handler guards it with `?.`). -/
structure Jet where
  id : ℤ
  name : Option String := none
  category : Option String := none
  seats : Option ℚ := none
  homebase : Option String := none
  speed_knots : Option ℚ := none
  speed : Option ℚ := none
  hourly_rate : ℚ := 0
  range_km : Option ℚ := none
  parking_cost_per_day : Option ℚ := none
deriving DecidableEq

/-- The effective speed in knots: `jet.speed_knots || jet.speed || null`.
`none` exactly when both fields are missing or zero. -/
def effKnots (jet : Jet) : Option ℚ :=
  jsOrNum jet.speed_knots (jsOrNum jet.speed none)

/-- Flight-time pretty printer of the handler:
`(hours > 0 ? hours + "h " : "") + minutes + "min"` with
`hours = Math.floor(t)` and `minutes = Math.round((t - hours) * 60)`. -/
def formatFlightTime (t : ℚ) : String :=
  let hours : ℤ := ⌊t⌋
  let minutes : ℤ := jsRound ((t - (hours : ℚ)) * 60)
  (if hours > 0 then toString hours ++ "h " else "") ++ toString minutes ++ "min"

/-- calculateRepositioningCost of the latest revision:
for `"parking"`, `parkingCostPerDay * Math.ceil(hours / 24) + hourly_rate * 2`
(with `parkingCostPerDay = jet.parking_cost_per_day || 500` and a fixed
`repositioningHours = 2`); for `"waiting"`, `hourly_rate * 0.3 * hours`;
anything else costs 0. -/
def calculateRepositioningCost (jet : Jet) (hours : ℚ) (ty : String) : ℚ :=
  let parkingCostPerDay := jsOrNumD jet.parking_cost_per_day 500
  let repositioningHours : ℚ := 2
  if ty = "parking" then
    parkingCostPerDay * (⌈hours / 24⌉ : ℚ) + jet.hourly_rate * repositioningHours
  else if ty = "waiting" then
    (jet.hourly_rate * (3/10)) * hours
  else 0

/-- A quote produced by the oneway/roundtrip branch of the latest handler
revision (fields of the object built in the `results = jetsNearby.map`
callback; echo and scheduling display fields omitted, see module header). -/
structure QuoteV2 where
  jet_id : ℤ
  home_base : Option String
  distance_km : ℤ
  flight_time_h : Option ℚ
  flight_time_pretty : Option String
  trip_type : String
  outbound_price : Option ℤ
  return_price : Option ℤ
  repositioning_cost : Option ℤ
  total_price : Option ℤ
  days_between : Option ℤ
  warning : Option String := none
deriving DecidableEq

/-- The `jetsNearby.map` callback of the latest revision (oneway/roundtrip
branch): prices one jet for the given trip type, `daysBetween` and route
distance.  A jet without usable speed gets the null-priced warning quote. -/
def priceJetV2 (tripType : String) (daysBetween : ℤ) (distance : ℚ) (jet : Jet) :
    QuoteV2 :=
  match effKnots jet with
  | none =>
    { jet_id := jet.id
      home_base := jet.homebase
      distance_km := jsRound distance
      flight_time_h := none
      flight_time_pretty := none
      trip_type := tripType
      outbound_price := none
      return_price := none
      repositioning_cost := none
      total_price := none
      days_between := none
      warning := some "Velocità mancante o non valida" }
  | some knots =>
    let speed_kmh := knots * (1852/1000)
    let flightTime := distance / speed_kmh
    let outboundCost := jet.hourly_rate * flightTime
    let returnCost : ℚ := if tripType = "roundtrip" then jet.hourly_rate * flightTime else 0
    let repositioningCost : ℚ :=
      if tripType = "roundtrip" then
        calculateRepositioningCost jet ((daysBetween : ℚ) * 24) "parking"
      else 0
    let totalCost := outboundCost + returnCost + repositioningCost
    { jet_id := jet.id
      home_base := jet.homebase
      distance_km := jsRound distance
      flight_time_h := some flightTime
      flight_time_pretty := some (formatFlightTime flightTime)
      trip_type := tripType
      outbound_price := some (jsRound outboundCost)
      return_price := if tripType = "roundtrip" then some (jsRound returnCost) else none
      repositioning_cost := if tripType = "roundtrip" then some (jsRound repositioningCost) else none
      total_price := some (jsRound totalCost)
      days_between := if tripType = "roundtrip" then some daysBetween else none
      warning := none }

/-- A quote of the legacy revisions (`part_000`, `part_001`, `part_002` and
the first half of `calculate.js`): single `price` field,
`price = Math.round(hourly_rate * flightTime * 2)`. -/
structure QuoteLegacy where
  jet_id : ℤ
  home_base : Option String
  distance_km : ℤ
  flight_time_h : Option ℚ
  flight_time_pretty : Option String
  price : Option ℤ
  warning : Option String := none
deriving DecidableEq

/-- The `jetsNearby.map` callback of the legacy revisions. -/
def priceJetLegacy (distance : ℚ) (jet : Jet) : QuoteLegacy :=
  match effKnots jet with
  | none =>
    { jet_id := jet.id
      home_base := jet.homebase
      distance_km := jsRound distance
      flight_time_h := none
      flight_time_pretty := none
      price := none
      warning := some "Velocità mancante o non valida" }
  | some knots =>
    let speed_kmh := knots * (1852/1000)
    let flightTime := distance / speed_kmh
    let totalCost := jet.hourly_rate * flightTime * 2
    { jet_id := jet.id
      home_base := jet.homebase
      distance_km := jsRound distance
      flight_time_h := some flightTime
      flight_time_pretty := some (formatFlightTime flightTime)
      price := some (jsRound totalCost)
      warning := none }

/-- JavaScript `String.prototype.trim()`: strip leading and trailing
whitespace (modelled character-wise). -/
def jsTrim (s : String) : String :=
  String.mk (((s.toList.dropWhile Char.isWhitespace).reverse.dropWhile
    Char.isWhitespace).reverse)

/-- JavaScript `String.prototype.toUpperCase()` (character-wise). -/
def jsToUpper (s : String) : String := String.mk (s.toList.map Char.toUpper)

/-- JavaScript `String.prototype.toLowerCase()` (character-wise). -/
def jsToLower (s : String) : String := String.mk (s.toList.map Char.toLower)

/-- Normalisation applied to a jet's home base before the `AIRPORTS` lookup:
`homebase.trim().toUpperCase()`. -/
def normCode (s : String) : String := jsToUpper (jsTrim s)

/-- The `jets.filter` of the handler: keep a jet iff its (normalised) home
base resolves in the `AIRPORTS` map and the distance from the departure
airport to the home base is at most 500 km.  The distance function `d`
stands for `getDistanceKm` (see module header). -/
def jetsNearby (d : Coords → Coords → ℚ) (airports : List (String × Coords))
    (dep : Coords) (jets : List Jet) : List Jet :=
  jets.filter fun jet =>
    match jet.homebase with
    | none => false
    | some hb =>
      match airports.lookup (normCode hb) with
      | none => false
      | some base => decide (d dep base ≤ 500)

/-- A JavaScript numeric sort comparator `(a, b) => f(a) - f(b)`, as used by
every `sort` call of the handler (a negative difference keeps `a` first):
the stable sort driven by it orders by the key `f` ascending. -/
def keyLe {α κ : Type _} [LinearOrder κ] (f : α → κ) : α → α → Bool :=
  fun a b => decide (f a ≤ f b)

/-- Sort key of `results.sort((a, b) => (a.total_price ?? Infinity) - (b.total_price ?? Infinity))`:
a missing price compares as positive infinity. -/
def keyOf (q : QuoteV2) : WithTop ℚ :=
  match q.total_price with
  | none => ⊤
  | some p => ((p : ℚ) : WithTop ℚ)

/-- The result ranking of the oneway/roundtrip branch: stable sort ascending
by total price, `null` prices last. -/
def rankQuotes (qs : List QuoteV2) : List QuoteV2 :=
  qs.mergeSort (keyLe keyOf)

/-- The full quoting pipeline of the oneway/roundtrip branch of the latest
handler revision: filter the fleet to jets based within 500 km of the
departure airport, price each one for the route `dep → arr`, and rank. -/
def handlerQuotes (d : Coords → Coords → ℚ) (airports : List (String × Coords))
    (dep arr : Coords) (tripType : String) (daysBetween : ℤ)
    (jets : List Jet) : List QuoteV2 :=
  rankQuotes ((jetsNearby d airports dep jets).map
    (priceJetV2 tripType daysBetween (d dep arr)))

/-- A resolved leg of a multileg request, as built by
`processMultilegRequest` before the jet loop: the great-circle distance is
already rounded (`distance_km: Math.round(distance)`), `to_icao` is the
resolved arrival code, and `dateMs` is the epoch-millisecond value of
`new Date(leg.date)` (`none` models `date: null`, which JavaScript coerces
to epoch 0 in the waiting-time arithmetic). -/
structure LegDetail where
  to_icao : String
  distance_km : ℤ
  dateMs : Option ℤ := none
deriving DecidableEq

/-- A multileg quote (the object pushed onto `suitableJets`; display echo
fields and the per-leg `legs` breakdown omitted, see module header). -/
structure MultilegQuote where
  jet_id : ℤ
  home_base : Option String
  range_km : ℚ
  total_distance_km : ℤ
  total_flight_time_h : ℚ
  total_price : ℤ
  final_repositioning_cost : ℤ
  can_complete_tour : Bool
deriving DecidableEq

/-- Waiting cost between consecutive multileg legs: if the gap to the next
leg's date exceeds 2 hours the handler charges
`calculateRepositioningCost(jet, waitingHours, "waiting")`.  A `null` date
behaves as epoch 0 (JavaScript `new Date(null)`). -/
def multilegWaitingCost (jet : Jet) (cur next : LegDetail) : ℚ :=
  let waitingHours : ℚ := (((next.dateMs.getD 0 : ℤ) : ℚ) - ((cur.dateMs.getD 0 : ℤ) : ℚ)) / 3600000
  if waitingHours > 2 then calculateRepositioningCost jet waitingHours "waiting" else 0

/-- Sum of per-leg flight costs plus waiting costs of the multileg jet
loop: each leg costs `hourly_rate * (leg.distance_km / speed_kmh)` and a
waiting charge accrues towards the next leg. -/
def multilegLegsCost (jet : Jet) (speed_kmh : ℚ) : List LegDetail → ℚ
  | [] => 0
  | [leg] => jet.hourly_rate * ((leg.distance_km : ℚ) / speed_kmh)
  | leg :: next :: rest =>
    jet.hourly_rate * ((leg.distance_km : ℚ) / speed_kmh) +
      multilegWaitingCost jet leg next +
      multilegLegsCost jet speed_kmh (next :: rest)

/-- Total flight time of all legs (hours), using the rounded leg
distances exactly as the handler does. -/
def multilegFlightTime (speed_kmh : ℚ) (legs : List LegDetail) : ℚ :=
  legs.foldl (fun acc leg => acc + (leg.distance_km : ℚ) / speed_kmh) 0

/-- Effective range: `jet.range_km || 3000`. -/
def effRangeKm (jet : Jet) : ℚ := jsOrNumD jet.range_km 3000

/-- Final repositioning cost of the multileg loop: if both the jet's home
base and the last leg's destination resolve in `AIRPORTS`, one more leg
home at `hourly_rate` per flight hour; otherwise 0.  (`legs` is guaranteed
non-empty by validation; an empty list contributes 0.) -/
def multilegFinalRepositioning (d : Coords → Coords → ℚ)
    (airports : List (String × Coords)) (jet : Jet) (speed_kmh : ℚ)
    (legs : List LegDetail) : ℚ :=
  match legs.getLast? with
  | none => 0
  | some lastLeg =>
    match jet.homebase.bind (fun hb => airports.lookup (normCode hb)),
        airports.lookup lastLeg.to_icao with
    | some baseAirport, some lastAirport =>
      jet.hourly_rate * (d lastAirport baseAirport / speed_kmh)
    | _, _ => 0

/-- The body of the `jets.forEach` loop of `processMultilegRequest`:
returns `none` when the jet is skipped (no usable speed, or some leg
exceeds its range), otherwise the quote pushed onto `suitableJets`. -/
def processMultilegJet (d : Coords → Coords → ℚ)
    (airports : List (String × Coords)) (legs : List LegDetail)
    (jet : Jet) : Option MultilegQuote :=
  match effKnots jet with
  | none => none
  | some knots =>
    let speed_kmh := knots * (1852/1000)
    let legDistances : List ℤ := legs.map fun l => l.distance_km
    let totalDistance : ℤ := legDistances.sum
    let totalFlightTime := multilegFlightTime speed_kmh legs
    let jetRange := effRangeKm jet
    match legDistances.max? with
    | some maxLegDistance =>
      if (maxLegDistance : ℚ) > jetRange then none
      else
        let finalRepositioningCost := multilegFinalRepositioning d airports jet speed_kmh legs
        let totalCost := multilegLegsCost jet speed_kmh legs + finalRepositioningCost
        some
          { jet_id := jet.id
            home_base := jet.homebase
            range_km := jetRange
            total_distance_km := totalDistance
            total_flight_time_h := totalFlightTime
            total_price := jsRound totalCost
            final_repositioning_cost := jsRound finalRepositioningCost
            can_complete_tour := decide ((maxLegDistance : ℚ) ≤ jetRange) }
    | none =>
      -- `Math.max()` of an empty spread is `-Infinity`, which never exceeds
      -- the range; unreachable in practice (validation requires ≥ 2 legs).
      let finalRepositioningCost := multilegFinalRepositioning d airports jet speed_kmh legs
      let totalCost := multilegLegsCost jet speed_kmh legs + finalRepositioningCost
      some
        { jet_id := jet.id
          home_base := jet.homebase
          range_km := jetRange
          total_distance_km := totalDistance
          total_flight_time_h := totalFlightTime
          total_price := jsRound totalCost
          final_repositioning_cost := jsRound finalRepositioningCost
          can_complete_tour := true }

/-- The multileg quote list: every jet that survives the speed and range
checks, sorted ascending by total price
(`suitableJets.sort((a, b) => a.total_price - b.total_price)`, stable). -/
def multilegQuotes (d : Coords → Coords → ℚ)
    (airports : List (String × Coords)) (legs : List LegDetail)
    (jets : List Jet) : List MultilegQuote :=
  (jets.filterMap (processMultilegJet d airports legs)).mergeSort
    (keyLe fun q => q.total_price)

/-- Accent folding for the NFD-decompose-and-strip-combining-marks step of
`normalizeInput` (the handler does `normalize("NFD").replace(/[̀-ͯ]/g, "")`).
Common precomposed Latin letters are mapped to their base letter; the
combining marks themselves are removed by `normalizeInput`. -/
def foldAccent (c : Char) : Char :=
  match c with
  | 'à' | 'á' | 'â' | 'ã' | 'ä' | 'å' => 'a'
  | 'è' | 'é' | 'ê' | 'ë' => 'e'
  | 'ì' | 'í' | 'î' | 'ï' => 'i'
  | 'ò' | 'ó' | 'ô' | 'õ' | 'ö' => 'o'
  | 'ù' | 'ú' | 'û' | 'ü' => 'u'
  | 'ç' => 'c'
  | 'ñ' => 'n'
  | 'À' | 'Á' | 'Â' | 'Ã' | 'Ä' | 'Å' => 'A'
  | 'È' | 'É' | 'Ê' | 'Ë' => 'E'
  | 'Ì' | 'Í' | 'Î' | 'Ï' => 'I'
  | 'Ò' | 'Ó' | 'Ô' | 'Õ' | 'Ö' => 'O'
  | 'Ù' | 'Ú' | 'Û' | 'Ü' => 'U'
  | 'Ç' => 'C'
  | 'Ñ' => 'N'
  | _ => c

/-- normalizeInput of the latest revision: strip diacritics (NFD + remove
combining marks U+0300–U+036F), lowercase, trim. -/
def normalizeInput (s : String) : String :=
  jsTrim (String.mk (s.toList.filterMap fun c =>
    if 0x300 ≤ c.toNat ∧ c.toNat ≤ 0x36F then none
    else some (Char.toLower (foldAccent c))))

/-- The strict ICAO pattern test of the resolver: `/^[A-Z]{4}$/.test(cityName)`. -/
def isICAO (s : String) : Bool :=
  s.length == 4 && s.toList.all fun c => 'A' ≤ c && c ≤ 'Z'

/-- Case-insensitive substring match, modelling a Postgres
`field.ilike.%pattern%` filter (the pattern the handler passes is already
lowercase). -/
def ilikeContains (field pat : String) : Bool :=
  decide (pat.toList <:+: (jsToLower field).toList)

/-- A row of the `Airport 2` directory table, with the columns the
resolver reads. -/
structure AirportRow where
  ident : String
  name : String
  type : String
  municipality : String
  iso_country : String
deriving DecidableEq

/-- A resolved location as returned by `getCityToICAOImproved`
(`{ code, name, municipality, confidence }`; the pure-ICAO branch leaves
`name`/`municipality` absent). -/
structure ResolvedLoc where
  code : String
  name : Option String := none
  municipality : Option String := none
  confidence : ℚ
deriving DecidableEq

/-- A resolution-cache entry (`{ data, timestamp }`). -/
structure CacheEntry where
  data : ResolvedLoc
  timestamp : ℤ
deriving DecidableEq

/-- CACHE_EXPIRY: one hour in milliseconds. -/
def CACHE_EXPIRY : ℤ := 1000 * 60 * 60

/-- Cache key: `normalizedCity + "_" + (countryHint || "")`. -/
def cacheKey (normalizedCity : String) (countryHint : Option String) : String :=
  normalizedCity ++ "_" ++ jsOrStr countryHint ""

/-- Confidence score of one tiered search candidate: tier weight, +20 for
an exact (normalised) municipality match, +15 when the normalised airport
name contains the query, +10 when the country hint matches `iso_country`. -/
def scoreCandidate (weight : ℚ) (normalizedCity : String)
    (countryHint : Option String) (a : AirportRow) : ℚ :=
  weight
    + (if normalizeInput a.municipality = normalizedCity then 20 else 0)
    + (if normalizedCity.toList <:+: (normalizeInput a.name).toList then 15 else 0)
    + (match countryHint with
       | some h => if h ≠ "" ∧ a.iso_country = h then 10 else 0
       | none => 0)

/-- One tier of the prioritised search: rows of the given classification
matching the query by municipality or name (`limit 5`), scored.  The
intermediate `type` field of the pushed candidate objects is dropped (it is
never read downstream). -/
def tierSearch (dir : List AirportRow) (normalizedCity : String)
    (countryHint : Option String) (ty : String) (weight : ℚ) : List ResolvedLoc :=
  ((dir.filter fun a =>
      a.type == ty &&
        (ilikeContains a.municipality normalizedCity || ilikeContains a.name normalizedCity)).take 5).map
    fun a =>
      { code := a.ident
        name := some a.name
        municipality := some a.municipality
        confidence := scoreCandidate weight normalizedCity countryHint a }

/-- The unrestricted fallback search (`name`/`municipality`/`ident` ilike,
ordered by `type`, `limit 3`), every hit getting fixed confidence 40. -/
def generalSearch (dir : List AirportRow) (normalizedCity : String) : List ResolvedLoc :=
  (((dir.filter fun a =>
        ilikeContains a.name normalizedCity || ilikeContains a.municipality normalizedCity ||
          ilikeContains a.ident normalizedCity).mergeSort
      fun a b => decide (a.type ≤ b.type)).take 3).map
    fun a =>
      { code := a.ident
        name := some a.name
        municipality := some a.municipality
        confidence := 40 }

/-- getCityToICAOImproved of the latest revision, as a pure function of the
cache state, the current time (`Date.now()` in ms), the airport directory,
the input and the optional country hint.  Returns the resolver result and
the updated cache (cache writes are modelled by consing, and
`List.lookup` returns the most recent entry).  Order of operations follows
the source: empty-input guard, cache probe, ICAO-pattern shortcut, tiered
search, general fallback, stable sort by descending confidence, first
result wins. -/
def getCityToICAOImproved (cache : List (String × CacheEntry)) (now : ℤ)
    (dir : List AirportRow) (cityName : String) (countryHint : Option String) :
    Option ResolvedLoc × List (String × CacheEntry) :=
  if cityName = "" then (none, cache)
  else
    let normalizedCity := normalizeInput cityName
    let key := cacheKey normalizedCity countryHint
    let cachedFresh : Option ResolvedLoc :=
      match cache.lookup key with
      | some entry => if now - entry.timestamp < CACHE_EXPIRY then some entry.data else none
      | none => none
    match cachedFresh with
    | some r => (some r, cache)
    | none =>
      if isICAO cityName then
        let result : ResolvedLoc := { code := cityName, confidence := 100 }
        (some result, (key, ⟨result, now⟩) :: cache)
      else
        let tiered :=
          tierSearch dir normalizedCity countryHint "large_airport" 100 ++
            tierSearch dir normalizedCity countryHint "medium_airport" 80 ++
              tierSearch dir normalizedCity countryHint "small_airport" 60
        let searchResults := if tiered.isEmpty then generalSearch dir normalizedCity else tiered
        match searchResults.mergeSort fun a b => decide (b.confidence ≤ a.confidence) with
        | [] => (none, cache)
        | best :: _ => (some best, (key, ⟨best, now⟩) :: cache)

/-- JavaScript truthiness of an optional string (empty string is falsy). -/
def jsTruthyStr (o : Option String) : Bool :=
  match o with
  | some s => s ≠ ""
  | none => false

/-- A leg object of a multileg request body (`{from, to, date, time}`).
`from`/`to` are reserved-ish names in Lean, so the fields are `fromLoc`/`toLoc`. -/
structure LegInput where
  fromLoc : Option String := none
  toLoc : Option String := none
  date : Option String := none
  time : Option String := none
deriving DecidableEq

/-- The request body fields read by `validateFlightRequest`
(`from`/`to` modelled as `fromLoc`/`toLoc`). -/
structure RequestBody where
  tripType : Option String := none
  departure : Option String := none
  arrival : Option String := none
  fromLoc : Option String := none
  toLoc : Option String := none
  date : Option String := none
  returnDate : Option String := none
  pax : Option ℚ := none
  legs : Option (List LegInput) := none
deriving DecidableEq

/-- Validation errors contributed by one multileg leg: missing `from`/`to`;
then, when a date is present: unparseable date, date in the past, and
non-chronological order versus the previous leg's (parseable) date.
`parseDate` models `new Date(string)` (`none` = Invalid Date) and `todayMs`
models `today` at midnight. -/
def validateLeg (parseDate : String → Option ℤ) (todayMs : ℤ)
    (idx : ℕ) (leg : LegInput) (prev : Option LegInput) : List String :=
  let tag := "Tratta " ++ toString (idx + 1)
  (if ¬ (jsTruthyStr leg.fromLoc ∧ jsTruthyStr leg.toLoc) then
      [tag ++ ": mancano from/to"]
    else []) ++
  (if jsTruthyStr leg.date then
      let legDate := parseDate (leg.date.getD "")
      (match legDate with
       | none => [tag ++ ": formato data non valido"]
       | some ms => if ms < todayMs then [tag ++ ": data non può essere nel passato"] else []) ++
      (match prev with
       | some prevLeg =>
         if jsTruthyStr prevLeg.date then
           match legDate, parseDate (prevLeg.date.getD "") with
           | some ms, some pms =>
             if ms ≤ pms then [tag ++ ": data deve essere successiva alla tratta precedente"]
             else []
           | _, _ => []
         else []
       | none => [])
    else [])

/-- validateFlightRequest of the latest revision.  `parseDate` models
JavaScript `new Date(s)` returning epoch milliseconds (`none` for an
Invalid Date) and `todayMs` the `today` reference set to midnight.
Note the multileg branch returns early when `legs` is missing, skipping
the pax and trip-type checks, exactly as the source does; and `returnDate`
is only validated when present — it is never required. -/
def validateFlightRequest (parseDate : String → Option ℤ) (todayMs : ℤ)
    (body : RequestBody) : List String :=
  let tripType := jsOrStr body.tripType "oneway"
  if tripType = "multileg" ∧ body.legs = none then
    ["Per multileg è richiesto un array \"legs\""]
  else
    (if tripType = "multileg" then
        let legs := body.legs.getD []
        (if legs.length < 2 then ["Multileg richiede almeno 2 tratte"] else []) ++
        (if legs.length > 10 then ["Massimo 10 tratte per multileg"] else []) ++
        (legs.enum.flatMap fun p =>
          validateLeg parseDate todayMs p.1 p.2
            (if p.1 > 0 then legs.get? (p.1 - 1) else none))
      else
        let departureInput := jsOrStr body.departure (jsOrStr body.fromLoc "")
        let arrivalInput := jsOrStr body.arrival (jsOrStr body.toLoc "")
        (if departureInput = "" ∨ arrivalInput = "" then ["Mancano dati di partenza o arrivo"]
          else []) ++
        (if jsTruthyStr body.date then
            match parseDate (body.date.getD "") with
            | none => ["Formato data non valido"]
            | some ms => if ms < todayMs then ["Data non può essere nel passato"] else []
          else []) ++
        (if jsTruthyStr body.returnDate then
            match parseDate (body.returnDate.getD "") with
            | none => ["Formato data di ritorno non valido"]
            | some rms =>
              if jsTruthyStr body.date &&
                  (match parseDate (body.date.getD "") with
                   | some dms => decide (rms ≤ dms)
                   | none => false) then
                ["Data di ritorno deve essere successiva alla partenza"]
              else []
          else [])) ++
    (match body.pax with
     | some p => if p ≠ 0 ∧ (p < 1 ∨ p > 50) then ["Numero passeggeri deve essere tra 1 e 50"] else []
     | none => []) ++
    (if tripType ≠ "oneway" ∧ tripType ≠ "roundtrip" ∧ tripType ≠ "multileg" then
        ["Tipo viaggio deve essere \"oneway\", \"roundtrip\" o \"multileg\""]
      else [])

/-- JavaScript `Math.atan2` restricted to real (non-NaN) arguments. -/
noncomputable def jsAtan2 (y x : ℝ) : ℝ :=
  if 0 < x then Real.arctan (y / x)
  else if x < 0 then
    (if 0 ≤ y then Real.arctan (y / x) + Real.pi else Real.arctan (y / x) - Real.pi)
  else if 0 < y then Real.pi / 2
  else if y < 0 then -(Real.pi / 2)
  else 0

/-- getDistanceKm, identical in every revision: haversine great-circle
distance with Earth radius R = 6371 km, via
`c = 2 * atan2(sqrt(a), sqrt(1 - a))`. -/
noncomputable def getDistanceKm (lat1 lon1 lat2 lon2 : ℝ) : ℝ :=
  let R : ℝ := 6371
  let dLat := (lat2 - lat1) * Real.pi / 180
  let dLon := (lon2 - lon1) * Real.pi / 180
  let a :=
    Real.sin (dLat / 2) ^ 2 +
      Real.cos (lat1 * Real.pi / 180) * Real.cos (lat2 * Real.pi / 180) *
        Real.sin (dLon / 2) ^ 2
  let c := 2 * jsAtan2 (Real.sqrt a) (Real.sqrt (1 - a))
  R * c

/-! ### Concrete fixtures used by witnesses and counterexamples -/

/-- Concrete jet used for claim C1: 500 knots (926 km/h), hourly rate 1000,
so a 926 km route takes exactly one hour. -/
def demoJetC1 : Jet := { id := 1, speed_knots := some 500, hourly_rate := 1000 }

/-- Concrete jet used for claim C2: 500 knots, hourly rate 1000, no
explicit parking cost (defaults to 500/day). -/
def demoJetC2 : Jet := { id := 2, speed_knots := some 500, hourly_rate := 1000 }

/-- Concrete unpriceable jet used for claim C3's witness: no speed fields,
based at a resolvable airport. -/
def wJetC3 : Jet := { id := 7, homebase := some "BASE" }

/-- Concrete unpriceable jet used for claim C3's counterexample. -/
def zJetC3 : Jet := { id := 9, homebase := some "LIML" }

/-- Concrete jet for claim C8's witness: no `range_km`, so the effective
range defaults to 3000 km, below the 4000 km legs. -/
def rJetC8 : Jet :=
  { id := 5, speed_knots := some 500, hourly_rate := 1000, homebase := some "HOME" }

/-- The directory row used by claim C6's counterexample: a large airport
whose municipality matches the query exactly, whose name contains it, and
whose country matches the hint. -/
def milanRow : AirportRow :=
  { ident := "LIML", name := "Milano Linate", type := "large_airport",
    municipality := "Milano", iso_country := "IT" }

/-- The stale-but-unexpired cache state for claim C7's counterexample:
key "liml_" (the cache key of any input normalising to "liml") holding a
confidence-40 result, timestamped now. -/
def poisonedCacheC7 : List (String × CacheEntry) :=
  [("liml_", ⟨⟨"LIML", none, none, 40⟩, 0⟩)]

/-- The request body for claim C10's counterexample: a round trip with
valid endpoints and no `returnDate`. -/
def rtBodyC10 : RequestBody :=
  { tripType := some "roundtrip", departure := some "Milano", arrival := some "Ibiza" }

/-! ### Generic lemmas about the stable sort used by the handler -/

theorem keyLe_trans {α κ : Type _} [LinearOrder κ] (f : α → κ) :
    ∀ (a b c : α), keyLe f a b → keyLe f b c → keyLe f a c := by
  intro a b c hab hbc
  exact decide_eq_true (le_trans (of_decide_eq_true hab) (of_decide_eq_true hbc))

theorem keyLe_total {α κ : Type _} [LinearOrder κ] (f : α → κ) :
    ∀ (a b : α), keyLe f a b || keyLe f b a := by
  intro a b
  rcases le_total (f a) (f b) with h | h <;> simp [keyLe, h]

theorem mergeSort_keyLe_perm {α κ : Type _} [LinearOrder κ] (f : α → κ) (l : List α) :
    (l.mergeSort (keyLe f)).Perm l :=
  List.mergeSort_perm l _

theorem mergeSort_keyLe_pairwise {α κ : Type _} [LinearOrder κ] (f : α → κ) (l : List α) :
    (l.mergeSort (keyLe f)).Pairwise fun a b => f a ≤ f b := by
  refine List.Pairwise.imp ?_ (List.sorted_mergeSort (keyLe_trans f) (keyLe_total f) l)
  intro a b h
  exact of_decide_eq_true h

theorem mergeSort_keyLe_filter_stable {α κ : Type _} [LinearOrder κ] (f : α → κ)
    (l : List α) (v : κ) :
    (l.mergeSort (keyLe f)).filter (fun a => decide (f a = v)) =
      l.filter (fun a => decide (f a = v)) := by
  set p : α → Bool := fun a => decide (f a = v) with hp
  have hall : ∀ a ∈ l.filter p, f a = v := by
    intro a ha
    exact of_decide_eq_true (List.mem_filter.mp ha).2
  have hpair : (l.filter p).Pairwise fun a b => keyLe f a b := by
    refine List.pairwise_of_forall_mem_list ?_
    intro a ha b hb
    exact decide_eq_true (le_of_eq ((hall a ha).trans (hall b hb).symm))
  have h1 : List.Sublist (l.filter p) (l.mergeSort (keyLe f)) :=
    List.sublist_mergeSort (keyLe_trans f) (keyLe_total f) hpair (List.filter_sublist l)
  have h2 : List.Sublist ((l.filter p).filter p) ((l.mergeSort (keyLe f)).filter p) :=
    h1.filter p
  have h3 : (l.filter p).filter p = l.filter p := by
    rw [List.filter_filter]
    apply List.filter_congr
    intro a _
    simp [p, Bool.and_self]
  rw [h3] at h2
  have hperm : ((l.mergeSort (keyLe f)).filter p).Perm (l.filter p) :=
    (List.mergeSort_perm l (keyLe f)).filter p
  exact (h2.eq_of_length hperm.length_eq.symm).symm

/-- C5: `rank` (the `results.sort` call comparing `total_price ?? Infinity`)
returns a permutation of the quotes sorted ascending by total price with
every `null`-priced quote after all priced ones (a `null` price compares as
positive infinity, so once a `null`-priced quote appears everything after
it is `null`-priced too), and the sort is stable: quotes with any given
total price keep their original relative order. -/
theorem rank_sorted_nulls_last_stable (qs : List QuoteV2) :
    (rankQuotes qs).Perm qs ∧
    (rankQuotes qs).Pairwise (fun a b => keyOf a ≤ keyOf b) ∧
    (rankQuotes qs).Pairwise (fun a b => a.total_price = none → b.total_price = none) ∧
    ∀ v : WithTop ℚ,
      (rankQuotes qs).filter (fun q => decide (keyOf q = v)) =
        qs.filter (fun q => decide (keyOf q = v)) := by
  refine ⟨mergeSort_keyLe_perm keyOf qs, mergeSort_keyLe_pairwise keyOf qs, ?_,
    fun v => mergeSort_keyLe_filter_stable keyOf qs v⟩
  refine (mergeSort_keyLe_pairwise keyOf qs).imp ?_
  intro a b hle ha
  have hatop : keyOf a = ⊤ := by simp [keyOf, ha]
  rw [hatop] at hle
  have hb : keyOf b = ⊤ := top_le_iff.mp hle
  cases hbp : b.total_price with
  | none => rfl
  | some p =>
    rw [keyOf, hbp] at hb
    exact absurd hb (by simp)

/-- C4: the fleet filter keeps a jet if and only if its home-base code
(after `trim().toUpperCase()`) resolves in the `AIRPORTS` index and the
distance from the departure point to the home base is at most 500 km (the
boundary value 500 itself passes the `dist <= 500` test); a jet whose home
base is absent or unresolvable fails the match and is silently dropped. -/
theorem jetsNearby_mem_iff (d : Coords → Coords → ℚ)
    (airports : List (String × Coords)) (dep : Coords) (jets : List Jet)
    (jet : Jet) :
    jet ∈ jetsNearby d airports dep jets ↔
      jet ∈ jets ∧ ∃ hb base, jet.homebase = some hb ∧
        airports.lookup (normCode hb) = some base ∧ d dep base ≤ 500 := by
  unfold jetsNearby
  rw [List.mem_filter]
  constructor
  · rintro ⟨hmem, hcond⟩
    refine ⟨hmem, ?_⟩
    cases hhb : jet.homebase with
    | none => simp only [hhb] at hcond; exact absurd hcond (by simp)
    | some hb =>
      simp only [hhb] at hcond
      cases hlk : airports.lookup (normCode hb) with
      | none => simp only [hlk] at hcond; exact absurd hcond (by simp)
      | some base =>
        simp only [hlk] at hcond
        exact ⟨hb, base, rfl, hlk, of_decide_eq_true hcond⟩
  · rintro ⟨hmem, hb, base, hhb, hlk, hle⟩
    refine ⟨hmem, ?_⟩
    simp only [hhb, hlk]
    exact decide_eq_true hle


/-- C1, counterexample: in the latest revision the one-way quote's total
price is round(hourlyRate * flightTime), not round(hourlyRate * flightTime * 2):
at distance 926 km, 500 knots and rate 1000 the handler returns 1000 while
the claimed doubling formula gives 2000. -/
theorem oneway_price_not_doubled_cx :
    (priceJetV2 "oneway" 0 926 demoJetC1).total_price ≠
      some (jsRound (demoJetC1.hourly_rate * (926 / (500 * (1852/1000))) * 2)) := by
  have h1 : (priceJetV2 "oneway" 0 926 demoJetC1).total_price = some 1000 := by
    simp [priceJetV2, demoJetC1, effKnots, jsOrNum]
    norm_num [jsRound]
  have h2 : jsRound (demoJetC1.hourly_rate * (926 / (500 * (1852/1000))) * 2) = 2000 := by
    norm_num [jsRound, demoJetC1]
  rw [h1, h2]
  simp

/-- C1 (amended): for every jet with usable speed `k` (and positive speed
and hourly rate), the latest revision prices a one-way trip at
round(hourlyRate * flightTime) — the single outbound leg, with no
repositioning doubling — while the legacy revisions price it at
round(hourlyRate * flightTime * 2), where flightTime = distance / (k * 1.852). -/
theorem oneway_price_current_vs_legacy (dist : ℚ) (jet : Jet) (k : ℚ)
    (hk : effKnots jet = some k) (hkpos : 0 < k) (hr : 0 < jet.hourly_rate) :
    (priceJetV2 "oneway" 0 dist jet).total_price =
      some (jsRound (jet.hourly_rate * (dist / (k * (1852/1000))))) ∧
    (priceJetLegacy dist jet).price =
      some (jsRound (jet.hourly_rate * (dist / (k * (1852/1000))) * 2)) := by
  constructor
  · simp [priceJetV2, hk]
  · simp [priceJetLegacy, hk]

/-- Witness for the amended C1 theorem at the concrete jet/route. -/
theorem oneway_price_current_vs_legacy_witness :
    (priceJetV2 "oneway" 0 926 demoJetC1).total_price =
      some (jsRound (demoJetC1.hourly_rate * (926 / (500 * (1852/1000))))) ∧
    (priceJetLegacy 926 demoJetC1).price =
      some (jsRound (demoJetC1.hourly_rate * (926 / (500 * (1852/1000))) * 2)) :=
  oneway_price_current_vs_legacy 926 demoJetC1 500 (by norm_num [effKnots, demoJetC1, jsOrNum])
    (by norm_num) (by norm_num [demoJetC1])


/-- C2, counterexample: the same-day round-trip total is not outbound*1.20.
At distance 926 km, 500 knots, rate 1000 the handler returns
round(1000 + 1000 + (500*ceil(0) + 1000*2)) = 4000, while the claimed 20%
premium formula gives round(1000*1*2 * 1.20) = 2400. -/
theorem roundtrip_sameday_not_twenty_percent_cx :
    (priceJetV2 "roundtrip" 0 926 demoJetC2).total_price ≠
      some (jsRound ((demoJetC2.hourly_rate * (926 / (500 * (1852/1000))) * 2) * (12/10))) := by
  have h1 : (priceJetV2 "roundtrip" 0 926 demoJetC2).total_price = some 4000 := by
    norm_num [priceJetV2, demoJetC2, effKnots, jsOrNum, jsRound,
      calculateRepositioningCost, jsOrNumD]
  have h2 : jsRound ((demoJetC2.hourly_rate * (926 / (500 * (1852/1000))) * 2) * (12/10)) = 2400 := by
    norm_num [jsRound, demoJetC2]
  rw [h1, h2]
  simp

/-- C2 (amended): for every same-day round trip (`daysBetween = 0`) and
every jet with usable speed, the total price is
round(2 * hourlyRate * flightTime + 2 * hourlyRate): both flown legs plus
the fixed 2-hour repositioning charge of
`calculateRepositioningCost(jet, 0, "parking")` (whose parking-day
component is `ceil(0/24) = 0`); no 20% premium is applied anywhere. -/
theorem roundtrip_sameday_total (dist : ℚ) (jet : Jet) (k : ℚ)
    (hk : effKnots jet = some k) (hkpos : 0 < k) (hr : 0 < jet.hourly_rate) :
    (priceJetV2 "roundtrip" 0 dist jet).total_price =
      some (jsRound (2 * (jet.hourly_rate * (dist / (k * (1852/1000)))) +
        2 * jet.hourly_rate)) := by
  have hrep : calculateRepositioningCost jet 0 "parking" = jet.hourly_rate * 2 := by
    simp [calculateRepositioningCost]
  simp [priceJetV2, hk, hrep]
  congr 1
  ring

/-- Witness for the amended C2 theorem at the concrete jet/route. -/
theorem roundtrip_sameday_total_witness :
    (priceJetV2 "roundtrip" 0 926 demoJetC2).total_price =
      some (jsRound (2 * (demoJetC2.hourly_rate * (926 / (500 * (1852/1000)))) +
        2 * demoJetC2.hourly_rate)) :=
  roundtrip_sameday_total 926 demoJetC2 500 (by norm_num [effKnots, demoJetC2, jsOrNum])
    (by norm_num) (by norm_num [demoJetC2])


/-- C3 (amended): in the oneway/roundtrip branch, a fleet-filtered jet
whose speed is missing or zero still appears in the ranked quote list,
with `flight_time_h = null`, `total_price = null` and the warning string,
and its presence does not disturb the other quotes (the quote list is a
permutation of one quote per nearby jet).  In the multileg branch such a
jet is silently dropped instead (see the counterexample). -/
theorem unpriceable_included_oneway_roundtrip
    (d : Coords → Coords → ℚ) (airports : List (String × Coords))
    (dep arr : Coords) (tripType : String) (daysBetween : ℤ) (jets : List Jet)
    (jet : Jet) (hmem : jet ∈ jetsNearby d airports dep jets)
    (hspeed : effKnots jet = none) :
    priceJetV2 tripType daysBetween (d dep arr) jet ∈
      handlerQuotes d airports dep arr tripType daysBetween jets ∧
    (priceJetV2 tripType daysBetween (d dep arr) jet).flight_time_h = none ∧
    (priceJetV2 tripType daysBetween (d dep arr) jet).total_price = none ∧
    (priceJetV2 tripType daysBetween (d dep arr) jet).warning =
      some "Velocità mancante o non valida" := by
  refine ⟨?_, ?_, ?_, ?_⟩
  · unfold handlerQuotes rankQuotes
    rw [List.mem_mergeSort]
    exact List.mem_map_of_mem _ hmem
  · simp [priceJetV2, hspeed]
  · simp [priceJetV2, hspeed]
  · simp [priceJetV2, hspeed]

/-- Witness for the amended C3 theorem: a speedless jet based 0 km from
departure appears, null-priced and warned, in the quote list. -/
theorem unpriceable_included_witness :
    priceJetV2 "oneway" 0 ((fun _ _ => (0 : ℚ)) (Coords.mk 0 0) (Coords.mk 0 0)) wJetC3 ∈
      handlerQuotes (fun _ _ => (0 : ℚ)) [("BASE", Coords.mk 0 0)]
        (Coords.mk 0 0) (Coords.mk 0 0) "oneway" 0 [wJetC3] ∧
    (priceJetV2 "oneway" 0 ((fun _ _ => (0 : ℚ)) (Coords.mk 0 0) (Coords.mk 0 0)) wJetC3).flight_time_h = none ∧
    (priceJetV2 "oneway" 0 ((fun _ _ => (0 : ℚ)) (Coords.mk 0 0) (Coords.mk 0 0)) wJetC3).total_price = none ∧
    (priceJetV2 "oneway" 0 ((fun _ _ => (0 : ℚ)) (Coords.mk 0 0) (Coords.mk 0 0)) wJetC3).warning =
      some "Velocità mancante o non valida" :=
  unpriceable_included_oneway_roundtrip (fun _ _ => (0 : ℚ)) [("BASE", Coords.mk 0 0)]
    (Coords.mk 0 0) (Coords.mk 0 0) "oneway" 0 [wJetC3] wJetC3
    (by decide)
    (by rfl)


/-- C3, counterexample: in the multileg branch an aircraft with missing
speed is silently dropped — the quote list for a 2-leg tour with only this
jet in the fleet is empty, instead of containing a null-priced warning
quote. -/
theorem multileg_drops_unpriceable_cx :
    effKnots zJetC3 = none ∧
    multilegQuotes (fun _ _ => 0) [("LIML", Coords.mk 0 0)]
      [⟨"LFPB", 100, none⟩, ⟨"LIML", 100, none⟩] [zJetC3] = [] := by
  constructor
  · rfl
  · simp [multilegQuotes, processMultilegJet, zJetC3, effKnots, jsOrNum, List.mergeSort]

/-- If the multileg jet loop produces a quote for a jet, the quote carries
that jet's id. -/
theorem processMultilegJet_jet_id {d : Coords → Coords → ℚ}
    {airports : List (String × Coords)} {legs : List LegDetail}
    {jet : Jet} {q : MultilegQuote}
    (h : processMultilegJet d airports legs jet = some q) : q.jet_id = jet.id := by
  unfold processMultilegJet at h
  dsimp only at h
  split at h
  · exact Option.noConfusion h
  · split at h
    · split at h
      · exact Option.noConfusion h
      · injection h with h
        subst h
        rfl
    · injection h with h
      subst h
      rfl

/-- Any member of a list of integers is bounded by `max?`. -/
theorem le_max?_of_mem_int {xs : List ℤ} {m b : ℤ} (hm : xs.max? = some m)
    (hb : b ∈ xs) : b ≤ m :=
  (List.max?_le_iff (fun _ _ _ => max_le_iff) hm).1 le_rfl b hb

/-- A jet one of whose legs exceeds its effective range is skipped by the
multileg jet loop. -/
theorem processMultilegJet_none_of_exceed {d : Coords → Coords → ℚ}
    {airports : List (String × Coords)} {legs : List LegDetail} {jet : Jet}
    (hexceed : ∃ l ∈ legs, effRangeKm jet < (l.distance_km : ℚ)) :
    processMultilegJet d airports legs jet = none := by
  obtain ⟨l, hl, hlt⟩ := hexceed
  unfold processMultilegJet
  dsimp only
  split
  · rfl
  · split
    · rename_i m hmax
      have hle : l.distance_km ≤ m :=
        le_max?_of_mem_int hmax (List.mem_map_of_mem _ hl)
      have hcast : (l.distance_km : ℚ) ≤ (m : ℚ) := by exact_mod_cast hle
      rw [if_pos (lt_of_lt_of_le hlt hcast)]
    · rename_i hmax
      exfalso
      have hnil : legs.map (fun l => l.distance_km) = [] :=
        List.max?_eq_none_iff.mp hmax
      have : l.distance_km ∈ legs.map (fun l => l.distance_km) :=
        List.mem_map_of_mem _ hl
      rw [hnil] at this
      exact absurd this (List.not_mem_nil _)

/-- C8: for every multileg request and fleet, a jet with a (uniquely held)
id one of whose legs' rounded distances exceeds its effective range
(`range_km || 3000`) contributes no quote: every quote in the multileg
result list carries a different jet id. -/
theorem multileg_range_exceeded_excluded
    (d : Coords → Coords → ℚ) (airports : List (String × Coords))
    (legs : List LegDetail) (jets : List Jet) (jet : Jet)
    (hmem : jet ∈ jets)
    (huniq : ∀ j ∈ jets, j.id = jet.id → j = jet)
    (hexceed : ∃ l ∈ legs, effRangeKm jet < (l.distance_km : ℚ)) :
    (multilegQuotes d airports legs jets).all
      (fun q => decide (q.jet_id ≠ jet.id)) = true := by
  rw [List.all_eq_true]
  intro q hq
  rw [decide_eq_true_eq]
  intro hqid
  have hq' : q ∈ jets.filterMap (processMultilegJet d airports legs) := by
    simpa [multilegQuotes] using hq
  obtain ⟨j, hjmem, hj⟩ := List.mem_filterMap.mp hq'
  have hid : q.jet_id = j.id := processMultilegJet_jet_id hj
  have hjeq : j = jet := huniq j hjmem (hid ▸ hqid)
  rw [hjeq] at hj
  rw [processMultilegJet_none_of_exceed hexceed] at hj
  exact absurd hj (by simp)


/-- Witness for the C8 theorem: a two-leg 4000 km tour excludes the
default-range jet — no quote in the result carries its id. -/
theorem multileg_range_exceeded_excluded_witness :
    (multilegQuotes (fun _ _ => (0 : ℚ)) [("HOME", Coords.mk 0 0)]
        [⟨"LFPB", 4000, none⟩, ⟨"HOME", 4000, none⟩] [rJetC8]).all
      (fun q => decide (q.jet_id ≠ rJetC8.id)) = true :=
  multileg_range_exceeded_excluded (fun _ _ => (0 : ℚ)) [("HOME", Coords.mk 0 0)]
    [⟨"LFPB", 4000, none⟩, ⟨"HOME", 4000, none⟩] [rJetC8] rJetC8
    (List.mem_singleton_self rJetC8)
    (fun j hj _ => List.mem_singleton.mp hj)
    ⟨⟨"LFPB", 4000, none⟩, by simp, by norm_num [effRangeKm, jsOrNumD, rJetC8]⟩

/-- The candidate score always lies between its tier weight and the tier
weight plus all three bonuses (20 + 15 + 10 = 45). -/
theorem scoreCandidate_bounds (weight : ℚ) (city : String)
    (hint : Option String) (a : AirportRow) :
    weight ≤ scoreCandidate weight city hint a ∧
      scoreCandidate weight city hint a ≤ weight + 45 := by
  unfold scoreCandidate
  rcases hint with _ | h <;> dsimp only <;> split_ifs <;> constructor <;> linarith

/-- Confidence bound for tiered search hits. -/
theorem mem_tierSearch_conf {dir : List AirportRow} {city : String}
    {hint : Option String} {ty : String} {weight : ℚ} {r : ResolvedLoc}
    (h : r ∈ tierSearch dir city hint ty weight) :
    weight ≤ r.confidence ∧ r.confidence ≤ weight + 45 := by
  unfold tierSearch at h
  obtain ⟨a, _, rfl⟩ := List.mem_map.mp h
  exact scoreCandidate_bounds weight city hint a

/-- Every unrestricted-fallback hit has fixed confidence 40. -/
theorem mem_generalSearch_conf {dir : List AirportRow} {city : String}
    {r : ResolvedLoc} (h : r ∈ generalSearch dir city) : r.confidence = 40 := by
  unfold generalSearch at h
  obtain ⟨a, _, rfl⟩ := List.mem_map.mp h
  rfl

/-- C6 (amended): whenever resolution succeeds — and every unexpired cache
entry was itself produced within bounds — the confidence score lies in
[0, 145], not [0, 100]: a tier weight of at most 100 can be augmented by
+20 (exact municipality) +15 (name contains input) +10 (country hint), so
145 is the true ceiling; the fallback confidence 40 and the pure-ICAO 100
also lie in this range.  The counterexample shows 145 is attained. -/
theorem resolver_confidence_in_0_145
    (cache : List (String × CacheEntry)) (now : ℤ) (dir : List AirportRow)
    (cityName : String) (countryHint : Option String) (r : ResolvedLoc)
    (hcache : ∀ k e, cache.lookup k = some e →
      0 ≤ e.data.confidence ∧ e.data.confidence ≤ 145)
    (hres : (getCityToICAOImproved cache now dir cityName countryHint).1 = some r) :
    0 ≤ r.confidence ∧ r.confidence ≤ 145 := by
  unfold getCityToICAOImproved at hres
  by_cases hempty : cityName = ""
  · rw [if_pos hempty] at hres
    exact Option.noConfusion hres
  · rw [if_neg hempty] at hres
    dsimp only at hres
    split at hres
    · -- fresh cache hit
      rename_i r' heq
      injection hres with hres
      subst hres
      split at heq
      · rename_i entry hlk
        split at heq
        · injection heq with heq
          subst heq
          exact hcache _ entry hlk
        · exact Option.noConfusion heq
      · exact Option.noConfusion heq
    · split at hres
      · -- ICAO shortcut: confidence 100
        injection hres with hres
        subst hres
        norm_num
      · -- tiered / general search
        split at hres
        · exact Option.noConfusion hres
        · rename_i best rest hsorted
          injection hres with hres
          subst hres
          have hmem : best ∈ (if (tierSearch dir (normalizeInput cityName) countryHint "large_airport" 100 ++
                tierSearch dir (normalizeInput cityName) countryHint "medium_airport" 80 ++
                  tierSearch dir (normalizeInput cityName) countryHint "small_airport" 60).isEmpty then
                generalSearch dir (normalizeInput cityName)
              else
                tierSearch dir (normalizeInput cityName) countryHint "large_airport" 100 ++
                  tierSearch dir (normalizeInput cityName) countryHint "medium_airport" 80 ++
                    tierSearch dir (normalizeInput cityName) countryHint "small_airport" 60) := by
            rw [← List.mem_mergeSort]
            rw [hsorted]
            exact List.mem_cons_self _ _
          split at hmem
          · have := mem_generalSearch_conf hmem
            rw [this]
            norm_num
          · simp only [List.mem_append] at hmem
            rcases hmem with (h1 | h2) | h3
            · have := mem_tierSearch_conf h1
              constructor <;> linarith [this.1, this.2]
            · have := mem_tierSearch_conf h2
              constructor <;> linarith [this.1, this.2]
            · have := mem_tierSearch_conf h3
              constructor <;> linarith [this.1, this.2]

/-- Witness for the C6 bound theorem: resolving the literal code "LIML"
against an empty cache and directory yields confidence 100 ∈ [0, 145]. -/
theorem resolver_confidence_in_0_145_witness :
    0 ≤ (ResolvedLoc.mk "LIML" none none 100).confidence ∧
      (ResolvedLoc.mk "LIML" none none 100).confidence ≤ 145 :=
  resolver_confidence_in_0_145 [] 0 [] "LIML" none (ResolvedLoc.mk "LIML" none none 100)
    (fun _ e h => Option.noConfusion h) rfl


/-- C6, counterexample: resolving "Milano" with country hint "IT" against
a directory holding `milanRow` succeeds with confidence
100 + 20 + 15 + 10 = 145, outside the claimed [0, 100] range. -/
theorem resolver_confidence_above_100_cx :
    ((getCityToICAOImproved [] 0 [milanRow] "Milano" (some "IT")).1.map
      fun r => r.confidence) = some 145 ∧ ¬ ((145 : ℚ) ≤ 100) := by
  constructor
  · have hms : ([(⟨"LIML", some "Milano Linate", some "Milano",
          scoreCandidate 100 (normalizeInput "Milano") (some "IT") milanRow⟩ : ResolvedLoc)]).mergeSort
          (fun a b => decide (b.confidence ≤ a.confidence)) =
        [⟨"LIML", some "Milano Linate", some "Milano",
          scoreCandidate 100 (normalizeInput "Milano") (some "IT") milanRow⟩] :=
      List.mergeSort_of_sorted (by simp)
    have hstep : getCityToICAOImproved [] 0 [milanRow] "Milano" (some "IT") =
        (match ([⟨"LIML", some "Milano Linate", some "Milano",
              scoreCandidate 100 (normalizeInput "Milano") (some "IT") milanRow⟩] :
                List ResolvedLoc).mergeSort
            (fun a b => decide (b.confidence ≤ a.confidence)) with
         | [] => (none, ([] : List (String × CacheEntry)))
         | best :: _ => (some best,
             [(cacheKey (normalizeInput "Milano") (some "IT"), ⟨best, 0⟩)])) := rfl
    rw [hstep, hms]
    show some (scoreCandidate 100 (normalizeInput "Milano") (some "IT") milanRow) = some 145
    unfold scoreCandidate
    rw [if_pos (by decide), if_pos (by decide)]
    dsimp only
    rw [if_pos (by decide)]
    norm_num
  · norm_num

/-- C7 (amended): when the cache holds no unexpired entry for the
normalised-input key, an input matching the strict `^[A-Z]{4}$` pattern
resolves to itself with confidence 100, for every directory — the
directory is never consulted.  (Without the cache condition this fails:
the cache probe precedes the ICAO-pattern check, see the counterexample.) -/
theorem icao_input_resolves_to_itself
    (cache : List (String × CacheEntry)) (now : ℤ) (dir : List AirportRow)
    (cityName : String) (countryHint : Option String)
    (hicao : isICAO cityName = true)
    (hmiss : ∀ e, cache.lookup (cacheKey (normalizeInput cityName) countryHint) = some e →
      CACHE_EXPIRY ≤ now - e.timestamp) :
    (getCityToICAOImproved cache now dir cityName countryHint).1 =
      some ⟨cityName, none, none, 100⟩ := by
  have hne : cityName ≠ "" := by
    intro h
    rw [h] at hicao
    exact absurd hicao (by decide)
  unfold getCityToICAOImproved
  rw [if_neg hne]
  dsimp only
  cases hlk : cache.lookup (cacheKey (normalizeInput cityName) countryHint) with
  | none =>
    simp only [hlk]
    rw [if_pos hicao]
  | some e =>
    have hexp : ¬ (now - e.timestamp < CACHE_EXPIRY) := not_lt.mpr (hmiss e hlk)
    simp only [hlk, if_neg hexp]
    rw [if_pos hicao]

/-- Witness for the amended C7 theorem: "LIML" with an empty cache resolves
to itself with confidence 100, with the directory empty. -/
theorem icao_input_resolves_to_itself_witness :
    (getCityToICAOImproved [] 7 [] "LIML" none).1 =
      some ⟨"LIML", none, none, 100⟩ :=
  icao_input_resolves_to_itself [] 7 [] "LIML" none (by decide)
    (fun e h => Option.noConfusion h)


/-- C7, counterexample: the cache probe runs before the ICAO-pattern check,
so with an unexpired cache entry under the key "liml_" the input "LIML"
(which matches `^[A-Z]{4}$`) returns the cached confidence 40, not 100 —
such an entry arises from an earlier directory resolution of an input like
"liml" or "LIML " that normalises to the same key. -/
theorem icao_input_cache_overrides_cx :
    isICAO "LIML" = true ∧
    (getCityToICAOImproved poisonedCacheC7 0 [] "LIML" none).1 =
      some ⟨"LIML", none, none, 40⟩ ∧
    ((40 : ℚ) ≠ 100) := by
  refine ⟨by decide, by rfl, by norm_num⟩


/-- C10, counterexample: a round-trip request omitting `returnDate` passes
validation — `validateFlightRequest` returns no errors, because the
`returnDate` block only runs when the field is present; it is never
required. -/
theorem returnDate_not_required_cx :
    jsOrStr rtBodyC10.tripType "oneway" = "roundtrip" ∧
    rtBodyC10.returnDate = none ∧
    validateFlightRequest (fun _ => none) 0 rtBodyC10 = [] := by
  refine ⟨rfl, rfl, by rfl⟩

/-- C10 (amended): `returnDate` is optional even for round trips: for every
date parser and clock, a round-trip request with non-empty departure and
arrival and no date, returnDate, pax or legs fields validates cleanly
(`returnDate` is checked only when present — it must then parse and follow
the departure date). -/
theorem roundtrip_missing_returnDate_passes
    (parseDate : String → Option ℤ) (todayMs : ℤ) (dep arr : String)
    (hdep : dep ≠ "") (harr : arr ≠ "") :
    validateFlightRequest parseDate todayMs
      { tripType := some "roundtrip", departure := some dep, arrival := some arr } = [] := by
  simp [validateFlightRequest, jsOrStr, jsTruthyStr, hdep, harr]

/-- Witness for the amended C10 theorem at a concrete body. -/
theorem roundtrip_missing_returnDate_passes_witness :
    validateFlightRequest (fun _ => none) 0
      { tripType := some "roundtrip", departure := some "Milano",
        arrival := some "Ibiza" } = [] :=
  roundtrip_missing_returnDate_passes (fun _ => none) 0 "Milano" "Ibiza"
    (by decide) (by decide)

/-- Math.atan2 is nonnegative on the first quadrant (both arguments
nonnegative), the only region the haversine formula produces. -/
theorem jsAtan2_nonneg {y x : ℝ} (hy : 0 ≤ y) (hx : 0 ≤ x) : 0 ≤ jsAtan2 y x := by
  unfold jsAtan2
  split_ifs with h1 h2 h3 h4 h5
  · have := Real.arctan_strictMono.monotone (div_nonneg hy h1.le)
    rwa [Real.arctan_zero] at this
  · linarith
  · linarith [Real.pi_pos]
  · linarith
  · exact le_refl 0

/-- C9: getDistanceKm implements the haversine formula with Earth radius
6371 km (by definition), and is (a) nonnegative for all latitudes in
[-90, 90] (where the cosine product is nonnegative; outside that range the
JavaScript original propagates NaN), (b) symmetric in its two endpoints
for all real coordinates, and (c) zero on identical points. -/
theorem getDistanceKm_spec :
    (∀ lat1 lon1 lat2 lon2 : ℝ, -90 ≤ lat1 → lat1 ≤ 90 → -90 ≤ lat2 → lat2 ≤ 90 →
      0 ≤ getDistanceKm lat1 lon1 lat2 lon2) ∧
    (∀ lat1 lon1 lat2 lon2 : ℝ,
      getDistanceKm lat1 lon1 lat2 lon2 = getDistanceKm lat2 lon2 lat1 lon1) ∧
    (∀ lat lon : ℝ, getDistanceKm lat lon lat lon = 0) := by
  refine ⟨?_, ?_, ?_⟩
  · intro lat1 lon1 lat2 lon2 _ _ _ _
    unfold getDistanceKm
    dsimp only
    refine mul_nonneg (by norm_num) (mul_nonneg (by norm_num) ?_)
    exact jsAtan2_nonneg (Real.sqrt_nonneg _) (Real.sqrt_nonneg _)
  · intro lat1 lon1 lat2 lon2
    unfold getDistanceKm
    dsimp only
    have hsin1 : Real.sin ((lat1 - lat2) * Real.pi / 180 / 2) ^ 2 =
        Real.sin ((lat2 - lat1) * Real.pi / 180 / 2) ^ 2 := by
      have h : (lat1 - lat2) * Real.pi / 180 / 2 =
          -((lat2 - lat1) * Real.pi / 180 / 2) := by ring
      rw [h, Real.sin_neg]
      ring
    have hsin2 : Real.sin ((lon1 - lon2) * Real.pi / 180 / 2) ^ 2 =
        Real.sin ((lon2 - lon1) * Real.pi / 180 / 2) ^ 2 := by
      have h : (lon1 - lon2) * Real.pi / 180 / 2 =
          -((lon2 - lon1) * Real.pi / 180 / 2) := by ring
      rw [h, Real.sin_neg]
      ring
    have ha : Real.sin ((lat1 - lat2) * Real.pi / 180 / 2) ^ 2 +
        Real.cos (lat2 * Real.pi / 180) * Real.cos (lat1 * Real.pi / 180) *
          Real.sin ((lon1 - lon2) * Real.pi / 180 / 2) ^ 2 =
        Real.sin ((lat2 - lat1) * Real.pi / 180 / 2) ^ 2 +
          Real.cos (lat1 * Real.pi / 180) * Real.cos (lat2 * Real.pi / 180) *
            Real.sin ((lon2 - lon1) * Real.pi / 180 / 2) ^ 2 := by
      rw [hsin1, hsin2]
      ring
    rw [ha]
  · intro lat lon
    unfold getDistanceKm
    dsimp only
    norm_num [sub_self, Real.sin_zero, Real.sqrt_zero, Real.sqrt_one, jsAtan2,
      Real.arctan_zero]

/-- Witness for the C9 theorem at the origin. -/
theorem getDistanceKm_spec_witness : 0 ≤ getDistanceKm 0 0 0 0 :=
  getDistanceKm_spec.1 0 0 0 0 (by norm_num) (by norm_num) (by norm_num) (by norm_num)
